import Mathlib

/-!
Verification development for the portfolio repository (FastAPI + Jinja2 +
Tailwind + Alpine.js).  Two parts are modelled:

1. The Cached Fetcher (`app/services/github_service.py`): the design spec
   describes a single operation `get_profile_data()` over an in-memory
   `CacheEntry` with a TTL, with a stale-fallback failure policy.  The
   service file itself is not among the provided sources (only the README
   describes it), so the fetcher is modelled from the design spec.

2. The Alpine.js client script: the `ui` store's `toggleMenu` and the
   `reveal` component's IntersectionObserver callback, embedded directly
   from the source.
-/

namespace Portfolio

/-- Modelled from the spec: `CacheEntry = { value, fetched_at }`, the single
in-memory cache record owned by the Cached Fetcher.  `fetched_at` is a
timestamp in seconds.  (The implementation file
`app/services/github_service.py` is not among the provided sources.) -/
structure CacheEntry (α : Type) where
  value : α
  fetched_at : Nat
  deriving DecidableEq

/-- Modelled from the spec: the read-only configuration record
`{ ttl_seconds : integer ≥ 0, upstream_identity, optional_auth_token }`. -/
structure Configuration where
  ttl_seconds : Nat
  upstream_identity : String
  optional_auth_token : Option String
  deriving DecidableEq

/-- Modelled from the spec: the failure the fetcher signals when the
upstream call fails and no cached value has ever been obtained. -/
inductive UpstreamUnavailable : Type where
  | mk
  deriving DecidableEq

/-- Modelled from the spec: the outcome presented by the upstream HTTP
boundary on one outbound call.  Network failure, non-success status and
malformed body all collapse to `failure` (spec §7 treats the three
identically). -/
inductive FetchOutcome (α : Type) where
  | success (v : α)
  | failure
  deriving DecidableEq

/-- Modelled from the spec: the fetcher's process-wide state: the
configuration plus the single optional `CacheEntry` (at most one entry per
the configured upstream identity, hence an `Option`). -/
structure FetcherState (α : Type) where
  config : Configuration
  cache : Option (CacheEntry α)
  deriving DecidableEq

/-- Result of one invocation of `get_profile_data()`: the value returned to
the caller (or the `UpstreamUnavailable` signal), the fetcher state after
the call, and the number of outbound network calls the invocation issued. -/
structure CallResult (α : Type) where
  result : Except UpstreamUnavailable α
  state : FetcherState α
  network_calls : Nat

/-- Modelled from the spec (§4.1): `get_profile_data()`.  If a `CacheEntry`
exists and `now - fetched_at < ttl_seconds`, return its value with no
network call.  Otherwise issue one outbound request; on success store the
response as a new `CacheEntry` and return it; on failure return the
previous entry's value if one exists, else signal `UpstreamUnavailable`.
The upstream boundary is passed in as the `FetchOutcome` the single
outbound call would produce. -/
def get_profile_data {α : Type} (s : FetcherState α) (now : Nat)
    (upstream : FetchOutcome α) : CallResult α :=
  match s.cache with
  | some e =>
      if now - e.fetched_at < s.config.ttl_seconds then
        { result := .ok e.value, state := s, network_calls := 0 }
      else
        match upstream with
        | .success v =>
            { result := .ok v
              state := { s with cache := some { value := v, fetched_at := now } }
              network_calls := 1 }
        | .failure =>
            { result := .ok e.value, state := s, network_calls := 1 }
  | none =>
      match upstream with
      | .success v =>
          { result := .ok v
            state := { s with cache := some { value := v, fetched_at := now } }
            network_calls := 1 }
      | .failure =>
          { result := .error .mk, state := s, network_calls := 1 }

/-- A sequence of invocations of `get_profile_data()`: each list element is
the call's clock reading paired with what the upstream boundary would
answer if consulted.  Returns the per-call results, the final state and the
total number of outbound network calls. -/
def run_calls {α : Type} (s : FetcherState α)
    (calls : List (Nat × FetchOutcome α)) :
    List (Except UpstreamUnavailable α) × FetcherState α × Nat :=
  match calls with
  | [] => ([], s, 0)
  | (t, o) :: rest =>
      let r := get_profile_data s t o
      let (results, s', n) := run_calls r.state rest
      (r.result :: results, s', r.network_calls + n)

/-! ### The Alpine.js `ui` store (src/unnamed/part_000, lines 2-7) -/

/-- The Alpine `ui` store: `Alpine.store("ui", { menuOpen: false, ... })`. -/
structure UIStore where
  menuOpen : Bool
  deriving DecidableEq

/-- The store's initial value: `menuOpen: false`. -/
def UIStore.start : UIStore := { menuOpen := false }

/-- `toggleMenu() { this.menuOpen = !this.menuOpen; }` -/
def toggleMenu (s : UIStore) : UIStore := { s with menuOpen := !s.menuOpen }

/-! ### The Alpine.js `reveal` component (src/unnamed/part_000, lines 9-25) -/

/-- State of one `reveal` component instance: its `visible` flag and
whether its IntersectionObserver is still connected. -/
structure RevealState where
  visible : Bool
  observerConnected : Bool
  deriving DecidableEq

/-- State right after `init()`: `visible: false` and the observer has been
created and attached via `observer.observe(this.$el)`. -/
def RevealState.start : RevealState := { visible := false, observerConnected := true }

/-- One step of the observer callback's `entries.forEach` body for a single
entry, represented by its `isIntersecting` flag:
`if (entry.isIntersecting) { this.visible = true; observer.disconnect(); }`. -/
def handleEntry (s : RevealState) (isIntersecting : Bool) : RevealState :=
  if isIntersecting then { visible := true, observerConnected := false } else s

/-- One invocation of the IntersectionObserver callback on a batch of
entries (each given by its `isIntersecting` flag), folding the per-entry
body over the batch as `entries.forEach` does. -/
def handleEntries (s : RevealState) (entries : List Bool) : RevealState :=
  entries.foldl handleEntry s

/-! ### Concrete fixtures used by witness theorems -/

/-- A concrete configuration: the spec's test scenario uses `ttl_seconds = 300`. -/
def testConfig : Configuration :=
  { ttl_seconds := 300, upstream_identity := "KhaledELG", optional_auth_token := none }

/-- A concrete cache entry fetched at time 0. -/
def testEntry : CacheEntry Nat := { value := 7, fetched_at := 0 }

/-- A concrete fetcher state holding `testEntry`. -/
def testState : FetcherState Nat := { config := testConfig, cache := some testEntry }

/-- A concrete fetcher state with no cache entry. -/
def testStateEmpty : FetcherState Nat := { config := testConfig, cache := none }

/-! ### Helper lemmas -/

/-- While the cache holds an entry fetched at `t0` and every call's clock
reading stays within the TTL of `t0`, every call returns the cached value,
the state never changes and zero outbound calls are made. -/
theorem run_calls_all_hits {α : Type} (cfg : Configuration) (v : α) (t0 : Nat)
    (calls : List (Nat × FetchOutcome α))
    (h : ∀ p ∈ calls, p.1 - t0 < cfg.ttl_seconds) :
    run_calls { config := cfg, cache := some { value := v, fetched_at := t0 } } calls
      = (calls.map (fun _ => Except.ok v),
         { config := cfg, cache := some { value := v, fetched_at := t0 } }, 0) := by
  induction calls with
  | nil => rfl
  | cons p rest ih =>
      obtain ⟨t, o⟩ := p
      have hh : t - t0 < cfg.ttl_seconds := h (t, o) (List.mem_cons_self _ _)
      have hrest := ih (fun q hq => h q (List.mem_cons_of_mem _ hq))
      simp [run_calls, get_profile_data, hh, hrest]

/-! ### Claim theorems -/

/-- Claim C1: while a `CacheEntry` exists whose age `now - fetched_at` is
strictly below `ttl_seconds`, every `get_profile_data()` call returns that
entry's value with no outbound network call; across one successful initial
fetch followed by any number of such in-TTL calls the total outbound call
count is exactly 1 (the initial fetch's one call plus 0 afterwards). -/
theorem get_profile_data_cache_hits_no_network {α : Type} (cfg : Configuration)
    (v : α) (t0 : Nat) (calls : List (Nat × FetchOutcome α))
    (h : ∀ p ∈ calls, p.1 - t0 < cfg.ttl_seconds) :
    (get_profile_data { config := cfg, cache := none } t0 (.success v)).network_calls = 1 ∧
    run_calls (get_profile_data { config := cfg, cache := none } t0 (.success v)).state calls
      = (calls.map (fun _ => Except.ok v),
         (get_profile_data { config := cfg, cache := none } t0 (.success v)).state, 0) :=
  ⟨rfl, run_calls_all_hits cfg v t0 calls h⟩

/-- Witness for C1: concrete run with `ttl_seconds = 300`: a successful
fetch of 7 at t=0 (1 outbound call), then calls at t=100 (upstream would
fail) and t=200 (upstream would return 9) both return the cached 7 with 0
outbound calls in total. -/
theorem get_profile_data_cache_hits_no_network_witness :
    (get_profile_data testStateEmpty 0 (.success 7)).network_calls = 1 ∧
    run_calls (get_profile_data testStateEmpty 0 (.success 7)).state
        [(100, .failure), (200, .success 9)]
      = ([Except.ok 7, Except.ok 7],
         (get_profile_data testStateEmpty 0 (.success 7)).state, 0) :=
  get_profile_data_cache_hits_no_network testConfig 7 0
    [(100, .failure), (200, .success 9)] (by decide)

/-- Claim C2: when the outbound fetch fails and a prior `CacheEntry`
exists, `get_profile_data()` returns the previous entry's value unchanged
(an `ok` result, so no exception reaches the caller) and leaves the state
exactly as it was. -/
theorem get_profile_data_stale_fallback {α : Type} (s : FetcherState α)
    (now : Nat) (e : CacheEntry α) (hc : s.cache = some e) :
    (get_profile_data s now .failure).result = .ok e.value ∧
    (get_profile_data s now .failure).state = s := by
  by_cases h : now - e.fetched_at < s.config.ttl_seconds
  · simp [get_profile_data, hc, h]
  · simp [get_profile_data, hc, h]

/-- Witness for C2: with a cached value 7 fetched at t=0 and a failing
fetch at t=301 (past the 300-second TTL), the call returns 7 and the state
is unchanged. -/
theorem get_profile_data_stale_fallback_witness :
    testState.cache = some testEntry ∧
    ((get_profile_data testState 301 .failure).result = .ok testEntry.value ∧
     (get_profile_data testState 301 .failure).state = testState) :=
  ⟨rfl, get_profile_data_stale_fallback testState 301 testEntry rfl⟩

/-- Claim C3: when the outbound fetch fails and no `CacheEntry` has ever
been stored, `get_profile_data()` signals `UpstreamUnavailable` (it returns
the `error` alternative, not a value), leaving the state unchanged after
its single outbound attempt. -/
theorem get_profile_data_no_cache_unavailable {α : Type} (s : FetcherState α)
    (now : Nat) (hc : s.cache = none) :
    (get_profile_data s now .failure).result = .error UpstreamUnavailable.mk ∧
    (get_profile_data s now .failure).state = s ∧
    (get_profile_data s now .failure).network_calls = 1 := by
  simp [get_profile_data, hc]

/-- Witness for C3: a failing fetch at t=0 from the empty-cache state
signals `UpstreamUnavailable`. -/
theorem get_profile_data_no_cache_unavailable_witness :
    testStateEmpty.cache = none ∧
    ((get_profile_data testStateEmpty 0 .failure).result
        = .error UpstreamUnavailable.mk ∧
     (get_profile_data testStateEmpty 0 .failure).state = testStateEmpty ∧
     (get_profile_data testStateEmpty 0 .failure).network_calls = 1) :=
  ⟨rfl, get_profile_data_no_cache_unavailable testStateEmpty 0 rfl⟩

/-- Claim C4: every invocation of `get_profile_data()` issues at most one
outbound network call, and whenever the cache cannot serve the call (the
entry's age has reached `ttl_seconds`, or no entry exists) the invocation
issues exactly one new outbound call. -/
theorem get_profile_data_network_call_bound {α : Type} (s : FetcherState α)
    (now : Nat) (o : FetchOutcome α) :
    (get_profile_data s now o).network_calls ≤ 1 ∧
    ((match s.cache with
      | some e => s.config.ttl_seconds ≤ now - e.fetched_at
      | none => True) →
      (get_profile_data s now o).network_calls = 1) := by
  rcases hc : s.cache with _ | e
  · rcases o <;> simp [get_profile_data, hc]
  · by_cases h : now - e.fetched_at < s.config.ttl_seconds
    · refine ⟨?_, ?_⟩
      · simp [get_profile_data, hc, h]
      · intro hle
        exact absurd h (not_lt.mpr hle)
    · rcases o <;> simp [get_profile_data, hc, h]

/-- Witness for C4: at t=301 the cached entry (fetched at t=0, TTL 300) is
stale, and a call whose fetch fails issues exactly one outbound call. -/
theorem get_profile_data_network_call_bound_witness :
    testState.config.ttl_seconds ≤ 301 - testEntry.fetched_at ∧
    (get_profile_data testState 301 FetchOutcome.failure).network_calls = 1 :=
  ⟨by decide,
   (get_profile_data_network_call_bound testState 301 .failure).2
     (show testState.config.ttl_seconds ≤ 301 - testEntry.fetched_at by decide)⟩

/-- Claim C5: atomicity on error: a failing fetch leaves the entire
fetcher state (hence the stored `CacheEntry`) exactly as it was, and on any
outcome the cache is either untouched or replaced wholesale by the entry
`{ value := v, fetched_at := now }` built from a successful fetch — it is
never partially mutated. -/
theorem get_profile_data_atomic_on_error {α : Type} (s : FetcherState α)
    (now : Nat) (o : FetchOutcome α) :
    (get_profile_data s now .failure).state = s ∧
    ((get_profile_data s now o).state.cache = s.cache ∨
      match o with
      | .success v =>
          (get_profile_data s now o).state.cache
            = some { value := v, fetched_at := now }
      | .failure => False) := by
  rcases hc : s.cache with _ | e
  · rcases o <;> simp [get_profile_data, hc]
  · by_cases h : now - e.fetched_at < s.config.ttl_seconds
    · rcases o <;> simp [get_profile_data, hc, h]
    · rcases o <;> simp [get_profile_data, hc, h]

/-- Claim C6: the fetcher state holds at most one `CacheEntry` (its cache
is an `Option`, and every invocation produces again a state of that type),
and every cache read either is served by an entry younger than
`ttl_seconds` with no outbound call, or triggers exactly one fetch which on
success replaces the entry wholesale (on failure the entry is kept, per the
spec's stale-fallback policy). -/
theorem get_profile_data_cache_invariant {α : Type} (s : FetcherState α)
    (now : Nat) (o : FetchOutcome α) :
    (∃ e, s.cache = some e ∧ now - e.fetched_at < s.config.ttl_seconds ∧
      (get_profile_data s now o).result = .ok e.value ∧
      (get_profile_data s now o).network_calls = 0) ∨
    ((get_profile_data s now o).network_calls = 1 ∧
      match o with
      | .success v =>
          (get_profile_data s now o).state.cache
            = some { value := v, fetched_at := now }
      | .failure => (get_profile_data s now o).state.cache = s.cache) := by
  rcases hc : s.cache with _ | e
  · right
    rcases o <;> simp [get_profile_data, hc]
  · by_cases h : now - e.fetched_at < s.config.ttl_seconds
    · left
      exact ⟨e, rfl, h, by simp [get_profile_data, hc, h],
             by simp [get_profile_data, hc, h]⟩
    · right
      rcases o <;> simp [get_profile_data, hc, h]

/-- Claim C7: idempotence of refresh: two successive successful fetches of
the same upstream value `v` (the second once the TTL has elapsed, so it
really re-fetches: 1 outbound call) store cache values that are equal under
structural comparison and return equal results. -/
theorem get_profile_data_idempotent_refetch {α : Type} (cfg : Configuration)
    (t1 t2 : Nat) (v : α) (h : cfg.ttl_seconds ≤ t2 - t1) :
    (get_profile_data
        (get_profile_data { config := cfg, cache := none } t1 (.success v)).state
        t2 (.success v)).network_calls = 1 ∧
    Option.map CacheEntry.value
        (get_profile_data { config := cfg, cache := none } t1 (.success v)).state.cache
      = Option.map CacheEntry.value
          (get_profile_data
            (get_profile_data { config := cfg, cache := none } t1 (.success v)).state
            t2 (.success v)).state.cache ∧
    (get_profile_data { config := cfg, cache := none } t1 (.success v)).result
      = (get_profile_data
          (get_profile_data { config := cfg, cache := none } t1 (.success v)).state
          t2 (.success v)).result := by
  have h' : ¬ t2 - t1 < cfg.ttl_seconds := not_lt.mpr h
  refine ⟨?_, ?_, ?_⟩
  · simp [get_profile_data, h']
  · simp [get_profile_data, h']
  · simp [get_profile_data, h']

/-- Witness for C7: fetching 7 at t=0 and re-fetching 7 at t=300 (TTL 300
elapsed, 1 outbound call) stores the same cache value and returns the same
result. -/
theorem get_profile_data_idempotent_refetch_witness :
    testConfig.ttl_seconds ≤ 300 - 0 ∧
    ((get_profile_data
        (get_profile_data testStateEmpty 0 (.success 7)).state
        300 (.success 7)).network_calls = 1 ∧
     Option.map CacheEntry.value
        (get_profile_data testStateEmpty 0 (.success 7)).state.cache
      = Option.map CacheEntry.value
          (get_profile_data
            (get_profile_data testStateEmpty 0 (.success 7)).state
            300 (.success 7)).state.cache ∧
     (get_profile_data testStateEmpty 0 (.success 7)).result
      = (get_profile_data
          (get_profile_data testStateEmpty 0 (.success 7)).state
          300 (.success 7)).result) :=
  ⟨by decide, get_profile_data_idempotent_refetch testConfig 0 300 7 (by decide)⟩

/-- Claim C8: the configuration record (all of `ttl_seconds`,
`upstream_identity`, `optional_auth_token`) is left unchanged by every
invocation of `get_profile_data()`. -/
theorem get_profile_data_config_immutable {α : Type} (s : FetcherState α)
    (now : Nat) (o : FetchOutcome α) :
    (get_profile_data s now o).state.config = s.config := by
  rcases hc : s.cache with _ | e
  · rcases o <;> simp [get_profile_data, hc]
  · by_cases h : now - e.fetched_at < s.config.ttl_seconds
    · simp [get_profile_data, hc, h]
    · rcases o <;> simp [get_profile_data, hc, h]

/-- Claim C9: the `ui` store starts with `menuOpen = false`, `toggleMenu`
is the strict boolean negation of `menuOpen`, and two consecutive calls
restore the exact store state that held before the first call. -/
theorem toggleMenu_involutive_negation (s : UIStore) :
    UIStore.start.menuOpen = false ∧
    (toggleMenu s).menuOpen = !s.menuOpen ∧
    toggleMenu (toggleMenu s) = s := by
  refine ⟨rfl, rfl, ?_⟩
  cases s with
  | mk m => simp [toggleMenu]

/-- Claim C10: the `reveal` component's `visible` flag starts `false`,
after any observer-callback batch it equals the old flag OR-ed with
whether some entry of the batch was intersecting (so it is set to `true`
only by an intersecting entry and is never reset to `false`), and handling
an intersecting entry disconnects the observer. -/
theorem reveal_visible_monotone (s : RevealState) (entries : List Bool) :
    RevealState.start.visible = false ∧
    (handleEntries s entries).visible = (s.visible || entries.any id) ∧
    (handleEntry s true).observerConnected = false := by
  refine ⟨rfl, ?_, rfl⟩
  induction entries generalizing s with
  | nil => simp [handleEntries]
  | cons b rest ih =>
      cases b
      · simpa [handleEntries, handleEntry] using ih s
      · have h2 := ih { visible := true, observerConnected := false }
        simp [handleEntries, handleEntry] at h2 ⊢
        exact h2

end Portfolio
